import Mathlib

/-!
Shallow embedding of `examples/media-sender/main.cpp` (libdatachannel media
sender): a UDP→WebRTC RTP relay with a signaling bridge, a session slot
guarded by a mutex, and a liveness watchdog.

Concurrency is embedded as an interleaving state machine: each callback or
loop iteration of the C++ program (a WebSocket message, a watchdog tick, one
pass of the UDP receive loop, a gathering-complete notification, a direct
`createPeerConnection` call) is one atomic `Event`; `step` is the transition
function and `runTrace` folds a list of events. External collaborators (the
session engine, the socket, the wall clock, JSON parsing) appear as event
parameters: the clock reading `now`, whether the track is open, whether
`send` succeeds, whether a build throws, and the parse result of an inbound
payload.
-/

namespace MediaSender

/-- Fixed process-wide synchronization identifier: `const rtc::SSRC ssrc = 42;`
(main.cpp line 145). -/
def ssrc : Nat := 42

/-- Modelled from the spec: `sizeof(rtc::RtpHeader)` — the type comes from
`rtc/rtp.hpp`, which is not under `src/`; the spec (§6) says each datagram
carries a header with a synchronization-identifier field at a fixed offset.
The minimal RTP header is 12 bytes with the 32-bit SSRC at byte offset 8. -/
def rtpHeaderSize : Nat := 12

/-- Offset of the synchronization-identifier field inside the header
(modelled from the spec, see `rtpHeaderSize`). -/
def ssrcOffset : Nat := 8

/-- Big-endian bytes of a 32-bit synchronization identifier. -/
def ssrcBytes (v : Nat) : List Nat :=
  [v / 16777216 % 256, v / 65536 % 256, v / 256 % 256, v % 256]

/-- Modelled from the spec: `RtpHeader::setSsrc` (in `rtc/rtp.hpp`, not under
`src/`) overwrites the 4-byte synchronization-identifier field at its fixed
offset with the given value in network byte order, leaving every other byte
of the datagram unchanged. -/
def setSsrcField (buf : List Nat) (v : Nat) : List Nat :=
  buf.take ssrcOffset ++ ssrcBytes v ++ buf.drop (ssrcOffset + 4)

/-- Modelled from the spec: read back the synchronization-identifier field
(big-endian at its fixed offset). -/
def getSsrcField (buf : List Nat) : Nat :=
  buf.getD 8 0 * 16777216 + buf.getD 9 0 * 65536 + buf.getD 10 0 * 256 +
    buf.getD 11 0

/-- Shared mutable state of the program: the captured locals of `main`.
Sessions and tracks are named by numeric ids drawn from `nextId`; `closed`
records the ids of sessions on which `close()` was called and `installed`
the ids ever published into the slot. -/
structure St where
  /-- `bool wsOpen` — set by `ws->onOpen`, cleared by `ws->onClosed`. -/
  wsOpen : Bool
  /-- `std::string pendingOffer` — empty string means no pending offer. -/
  pendingOffer : String
  /-- `pc` and `track` behind `pcMutex`: the current (session, track) pair. -/
  slot : Option (Nat × Nat)
  /-- Ids of sessions that were ever installed into the slot. -/
  installed : List Nat
  /-- Ids of sessions on which `close()` was called. -/
  closed : List Nat
  /-- `std::atomic<bool> idle{true}`. -/
  idle : Bool
  /-- `std::atomic<int64_t> lastPacketMs{0}`. -/
  lastPacketMs : Int
  /-- `std::atomic<bool> reconnecting{false}`. -/
  reconnecting : Bool
  /-- Fresh-id counter for newly constructed sessions/tracks. -/
  nextId : Nat
deriving Repr, DecidableEq

/-- State of the locals at the point the threads start. -/
def initSt : St :=
  { wsOpen := false, pendingOffer := "", slot := none, installed := [],
    closed := [], idle := true, lastPacketMs := 0, reconnecting := false,
    nextId := 0 }

/-- Outbound signaling message as built by
`json offerMessage = \x7b\x7bid, remoteId\x7d, \x7btype, offer\x7d, \x7bsdp, ...\x7d\x7d`. -/
structure OutMsg where
  id : String
  type : String
  sdp : String
deriving Repr, DecidableEq

/-- Observable effects of one event. -/
structure EvOut where
  /-- Messages passed to `ws->send`. -/
  wsMsgs : List OutMsg := []
  /-- Packets handed to `track->send` (after the SSRC rewrite). -/
  sends : List (List Nat) := []
  /-- Remote descriptions applied via `setRemoteDescription`, with the id of
  the session they were applied to. -/
  applied : List (Nat × String) := []
  /-- Whether this event was a relay-loop pass that accepted a packet. -/
  accepted : Bool := false
  /-- Whether this event was a watchdog tick that invoked the rebuild. -/
  wdTrig : Bool := false
  /-- Number of `createPeerConnection` invocations during the event. -/
  builds : Nat := 0
deriving Repr, DecidableEq

/-- Point at which a build can throw: `rtc::PeerConnection` construction,
`addTrack` (media-line setup), or `setLocalDescription` (starting local
negotiation). -/
inductive BuildFail where
  | atCtor
  | atAddTrack
  | atSetLocal
deriving Repr, DecidableEq

/-- Embedding of the `createPeerConnection` lambda (main.cpp lines 146-188).
`fail = some p` means an exception is thrown at point `p`; the exception
propagates to the caller and, as in the code, nothing resets `reconnecting`.
On success the locked section closes any prior session and installs the new
(session, track) pair, then `reconnecting` is cleared. Returns the new state
and whether the build ran to completion. -/
def createPeerConnection (st : St) (fail : Option BuildFail) : St × Bool :=
  let st1 := { st with reconnecting := true }
  match fail with
  | some BuildFail.atCtor => (st1, false)
  | some BuildFail.atAddTrack => ({ st1 with nextId := st1.nextId + 1 }, false)
  | some BuildFail.atSetLocal => ({ st1 with nextId := st1.nextId + 1 }, false)
  | none =>
    let pcId := st1.nextId
    let closed2 := match st1.slot with
      | some (oldPc, _) => oldPc :: st1.closed
      | none => st1.closed
    ({ st1 with
        nextId := pcId + 1,
        closed := closed2,
        slot := some (pcId, pcId),
        installed := pcId :: st1.installed,
        reconnecting := false }, true)

/-- Parsed inbound signaling payload: an object with string-valued fields,
looked up by key in order (the fields the program reads, `type` and `sdp`,
are strings). -/
structure JsonObj where
  fields : List (String × String)
deriving Repr, DecidableEq

/-- `message.find(key)`: the value of the first field named `key`. -/
def JsonObj.find (m : JsonObj) (key : String) : Option String :=
  List.lookup key m.fields

/-- Inbound WebSocket data: a binary message, or a text message together
with the result of `json::parse(text, nullptr, false)` — `none` models a
discarded (unparseable) payload. -/
inductive WsData where
  | binary
  | text (parsed : Option JsonObj)
deriving Repr, DecidableEq

/-- Embedding of the `ws->onMessage` handler (main.cpp lines 97-131).
Non-string data, unparseable payloads, payloads without a `type` field,
`answer` without an `sdp` field, and unknown discriminators are all dropped.
`answer` applies the description to the session currently in the slot (read
under the lock); `request`/`ready` re-send the pending offer when one exists
and the channel is open. -/
def onMessage (remoteId : String) (st : St) (d : WsData) : St × EvOut :=
  match d with
  | WsData.binary => (st, {})
  | WsData.text none => (st, {})
  | WsData.text (some m) =>
    match m.find "type" with
    | none => (st, {})
    | some ty =>
      if ty = "answer" then
        match m.find "sdp" with
        | none => (st, {})
        | some sdp =>
          match st.slot with
          | some (pcId, _) => (st, { applied := [(pcId, sdp)] })
          | none => (st, {})
      else if ty = "request" ∨ ty = "ready" then
        if st.pendingOffer ≠ "" ∧ st.wsOpen then
          (st, { wsMsgs := [⟨remoteId, "offer", st.pendingOffer⟩] })
        else (st, {})
      else (st, {})

/-- Embedding of the gathering-state callback body for
`GatheringState::Complete` (main.cpp lines 154-171): store the local
description as the pending offer and, if the channel is open, send the offer
message immediately. -/
def onGatheringComplete (remoteId : String) (st : St) (desc : String) :
    St × EvOut :=
  let st1 := { st with pendingOffer := desc }
  if st1.wsOpen then
    (st1, { wsMsgs := [⟨remoteId, "offer", desc⟩] })
  else (st1, {})

/-- Idle threshold of the watchdog: `const int64_t idleThresholdMs = 2000;`. -/
def idleThresholdMs : Int := 2000

/-- Embedding of one iteration of the watchdog loop (main.cpp lines 210-224).
Note the faithful absence of a guard on the idle check: the statement
`if (!wsOpen || reconnecting) std::this_thread::sleep_for(200ms);` only
sleeps — it does not `continue` — so the idle check below runs on every
tick regardless of `wsOpen` and `reconnecting`. Returns the new state and
whether the tick invoked `createPeerConnection` (exactly once when it did). -/
def watchdogTick (st : St) (now : Int) (fail : Option BuildFail) : St × Bool :=
  let lastMs := st.lastPacketMs
  if lastMs ≠ 0 ∧ now - lastMs > idleThresholdMs ∧ st.idle = false then
    let st1 := { st with idle := true, pendingOffer := "" }
    let st2 := (createPeerConnection st1 fail).1
    (st2, true)
  else (st, false)

/-- Result of one `recv` call: an error (benign interrupt or otherwise), or
a datagram given by its bytes. -/
inductive RecvResult where
  | err (eintr : Bool)
  | dgram (buf : List Nat)
deriving Repr, DecidableEq

/-- Embedding of one pass of the UDP receive loop (main.cpp lines 230-265).
Receive errors retry (EINTR immediately, others after a pause) with no state
change. A datagram is relayed only when a track is installed, the datagram
is at least the RTP header size, and the track is open (`trackIsOpen`, an
environment input); then the liveness timestamp is refreshed, the idle flag
cleared, the SSRC rewritten, and the packet handed to `track->send`. A send
failure (`sendOk = false`) clears the pending offer and rebuilds. -/
def relayStep (st : St) (r : RecvResult) (now : Int) (trackIsOpen : Bool)
    (sendOk : Bool) (fail : Option BuildFail) : St × EvOut :=
  match r with
  | RecvResult.err _ => (st, {})
  | RecvResult.dgram buf =>
    let currentTrack := st.slot.map Prod.snd
    if currentTrack = none ∨ buf.length < rtpHeaderSize ∨ trackIsOpen = false
    then (st, {})
    else
      let st1 := { st with lastPacketMs := now, idle := false }
      let pkt := setSsrcField buf ssrc
      if sendOk then
        (st1, { sends := [pkt], accepted := true })
      else
        let st2 := { st1 with pendingOffer := "" }
        let st3 := (createPeerConnection st2 fail).1
        (st3, { sends := [pkt], accepted := true, builds := 1 })

/-- One atomic event of the interleaving: a channel open/close notification,
an inbound message, a gathering-complete notification, a watchdog tick at
clock reading `now`, one relay-loop pass, or a direct `createPeerConnection`
call (the startup path). -/
inductive Event where
  | wsOpenEv
  | wsClosedEv
  | msg (d : WsData)
  | gathered (desc : String)
  | tick (now : Int) (fail : Option BuildFail)
  | relay (r : RecvResult) (now : Int) (trackIsOpen : Bool) (sendOk : Bool)
      (fail : Option BuildFail)
  | build (fail : Option BuildFail)
deriving Repr, DecidableEq

/-- Transition function: dispatch one event against the shared state. -/
def step (remoteId : String) (st : St) (e : Event) : St × EvOut :=
  match e with
  | Event.wsOpenEv => ({ st with wsOpen := true }, {})
  | Event.wsClosedEv => ({ st with wsOpen := false }, {})
  | Event.msg d => onMessage remoteId st d
  | Event.gathered desc => onGatheringComplete remoteId st desc
  | Event.tick now fail =>
    let p := watchdogTick st now fail
    (p.1, { wdTrig := p.2, builds := if p.2 then 1 else 0 })
  | Event.relay r now trackIsOpen sendOk fail =>
    relayStep st r now trackIsOpen sendOk fail
  | Event.build fail =>
    let p := createPeerConnection st fail
    (p.1, { builds := 1 })

/-- Run a list of events, collecting the per-event outputs in order. -/
def runTrace (remoteId : String) (st : St) : List Event → St × List EvOut
  | [] => (st, [])
  | e :: es =>
    let p := step remoteId st e
    let q := runTrace remoteId p.1 es
    (q.1, p.2 :: q.2)

/-- Identifier of the session currently installed in the slot, if any. -/
def slotPc (st : St) : Option Nat := st.slot.map Prod.fst

/-- Single-active-session invariant: every session that was ever installed
into the slot and never closed is the one currently in the slot. In
particular at most one installed session is non-closed at any observation
point. -/
def SlotInv (st : St) : Prop :=
  ∀ sid ∈ st.installed, sid ∉ st.closed → slotPc st = some sid

instance slotInvDecidable (st : St) : Decidable (SlotInv st) :=
  List.decidableBAll _ st.installed

/-- Events that can possibly be accepted by the relay loop: a relay pass on
a datagram of at least header size with the track reported open. Every other
event is rejected by the relay loop's guard independently of the state. -/
def mayAccept : Event → Bool
  | Event.relay (RecvResult.dgram buf) _ trackIsOpen _ _ =>
    trackIsOpen && decide (rtpHeaderSize ≤ buf.length)
  | _ => false

/-- CLI configuration (main.cpp lines 47-50). The port is kept as its raw
argument text: the numeric conversion is done by `std::stoi`, an external
call out of scope here. -/
structure Cfg where
  signalingHost : String
  signalingPort : String
  localId : String
  remoteId : String
deriving Repr, DecidableEq

/-- Defaults of the CLI configuration. -/
def defaultCfg : Cfg := ⟨"127.0.0.1", "8000", "sender", "browser"⟩

/-- Result of the argument loop: proceed with a configuration, exit 0 after
printing usage, or exit 1 after printing `Unknown argument` to stderr. -/
inductive ArgResult where
  | proceed (cfg : Cfg)
  | helpExit
  | unknownExit (arg : String)
deriving Repr, DecidableEq

/-- Embedding of the argument loop (main.cpp lines 52-70). A value flag
consumes the following argument only when one exists (`i + 1 < argc`); a
value flag in last position falls through to the unknown-argument branch,
as in the source. -/
def parseArgs (cfg : Cfg) : List String → ArgResult
  | [] => ArgResult.proceed cfg
  | "--signaling-ip" :: v :: rest =>
    parseArgs { cfg with signalingHost := v } rest
  | "--signaling-port" :: v :: rest =>
    parseArgs { cfg with signalingPort := v } rest
  | "--local-id" :: v :: rest => parseArgs { cfg with localId := v } rest
  | "--remote-id" :: v :: rest => parseArgs { cfg with remoteId := v } rest
  | arg :: _ =>
    if arg = "--help" then ArgResult.helpExit else ArgResult.unknownExit arg

/-- Startup conditions chosen by the environment: whether the signaling
channel closes before it opens (the wait loop at main.cpp lines 139-143
throws) and whether the UDP bind fails (line 196 throws). -/
structure StartupEnv where
  wsClosesBeforeOpen : Bool
  bindFails : Bool
deriving Repr, DecidableEq

/-- Observable outcome of the process: it exited with a code (recording
whether anything was printed to standard error), or it entered its infinite
relay loop. -/
inductive MainOutcome where
  | exitedWith (code : Nat) (stderrOut : Bool)
  | runsForever
deriving Repr, DecidableEq

/-- Embedding of `main`'s top level: the argument loop with its two early
returns, then the startup phase inside `try`. A `std::runtime_error` thrown
at startup is caught by the top-level handler (main.cpp lines 267-269),
which prints `Error: ...` to standard error; control then falls off the end
of `main`, which yields exit status 0. -/
def mainTop (args : List String) (env : StartupEnv) : MainOutcome :=
  match parseArgs defaultCfg args with
  | ArgResult.helpExit => MainOutcome.exitedWith 0 false
  | ArgResult.unknownExit _ => MainOutcome.exitedWith 1 true
  | ArgResult.proceed _ =>
    if env.wsClosesBeforeOpen then MainOutcome.exitedWith 0 true
    else if env.bindFails then MainOutcome.exitedWith 0 true
    else MainOutcome.runsForever

/-- Reading back the synchronization-identifier field after `setSsrcField`
yields the written value (reduced to 32 bits), for any datagram of at least
header size. -/
theorem getSsrcField_setSsrcField (buf : List Nat) (v : Nat)
    (h : rtpHeaderSize ≤ buf.length) :
    getSsrcField (setSsrcField buf v) = v % 4294967296 := by
  simp only [rtpHeaderSize] at h
  have h8 : (buf.take 8).length = 8 := by
    simp [List.length_take]
    omega
  have hb : setSsrcField buf v =
      buf.take 8 ++ ([v / 16777216 % 256, v / 65536 % 256, v / 256 % 256,
        v % 256] ++ buf.drop 12) := by
    simp [setSsrcField, ssrcOffset, ssrcBytes]
  have hget : ∀ k : Nat, k < 4 →
      (setSsrcField buf v).getD (8 + k) 0 =
        [v / 16777216 % 256, v / 65536 % 256, v / 256 % 256, v % 256].getD k 0 := by
    intro k hk
    rw [hb, List.getD_append_right _ _ _ _ (by omega)]
    have : 8 + k - (buf.take 8).length = k := by omega
    rw [this]
    rw [List.getD_append _ _ _ _ (by simp; omega)]
  have g8 := hget 0 (by omega)
  have g9 := hget 1 (by omega)
  have g10 := hget 2 (by omega)
  have g11 := hget 3 (by omega)
  simp only [Nat.add_zero] at g8
  simp only [getSsrcField, g8, g9, g10, g11]
  simp only [List.getD]
  simp
  omega

/-- C1: every datagram accepted by the relay loop (at least header-sized, a
track installed and open) is handed to `track->send` with its SSRC field
rewritten to the fixed process-wide value 42, regardless of the inbound
SSRC bytes. -/
theorem relay_stamps_fixed_ssrc (st : St) (buf : List Nat) (now : Int)
    (sendOk : Bool) (fail : Option BuildFail) (p : Nat × Nat)
    (hslot : st.slot = some p) (hlen : rtpHeaderSize ≤ buf.length) :
    (relayStep st (RecvResult.dgram buf) now true sendOk fail).2.sends =
      [setSsrcField buf ssrc] ∧
    getSsrcField (setSsrcField buf ssrc) = 42 := by
  constructor
  · have hc : ¬ (st.slot.map Prod.snd = none ∨
        buf.length < rtpHeaderSize ∨ (true : Bool) = false) := by
      simp [hslot]
      omega
    simp only [relayStep, if_neg hc]
    cases sendOk <;> simp
  · rw [getSsrcField_setSsrcField buf ssrc hlen]
    decide

/-- Closed instance of `relay_stamps_fixed_ssrc`: a 12-byte datagram whose
SSRC bytes are all 7, relayed while session 0 is installed and open, is sent
with SSRC 42. -/
theorem relay_stamps_fixed_ssrc_witness :
    (relayStep (createPeerConnection initSt none).1
        (RecvResult.dgram (List.replicate 12 7)) 5 true true none).2.sends =
      [setSsrcField (List.replicate 12 7) ssrc] ∧
    getSsrcField (setSsrcField (List.replicate 12 7) ssrc) = 42 :=
  relay_stamps_fixed_ssrc (createPeerConnection initSt none).1
    (List.replicate 12 7) 5 true none (0, 0) (by decide) (by decide)

/-- C8: a datagram shorter than the RTP header size leaves the whole state
unchanged (liveness timestamp and idle flag included) and produces no
outputs at all: it is discarded silently. -/
theorem short_packet_rejected (st : St) (buf : List Nat) (now : Int)
    (trackIsOpen sendOk : Bool) (fail : Option BuildFail)
    (hlen : buf.length < rtpHeaderSize) :
    relayStep st (RecvResult.dgram buf) now trackIsOpen sendOk fail =
      (st, {}) := by
  have hc : st.slot.map Prod.snd = none ∨
      buf.length < rtpHeaderSize ∨ trackIsOpen = false := Or.inr (Or.inl hlen)
  simp only [relayStep, if_pos hc]

/-- Closed instance of `short_packet_rejected`: an 11-byte datagram arriving
with a live installed session is dropped with no state change. -/
theorem short_packet_rejected_witness :
    relayStep (createPeerConnection initSt none).1
        (RecvResult.dgram (List.replicate 11 7)) 5 true true none =
      ((createPeerConnection initSt none).1, {}) :=
  short_packet_rejected (createPeerConnection initSt none).1
    (List.replicate 11 7) 5 true true none (by decide)

/-- C10: a datagram of sufficient length arriving while no track is
installed, or while the installed track is not open, is discarded with no
state change: the liveness timestamp is not updated and the idle flag is
not cleared, so such packets never suppress the watchdog's idle detection. -/
theorem packet_without_open_track_ignored (st : St) (buf : List Nat)
    (now : Int) (trackIsOpen sendOk : Bool) (fail : Option BuildFail)
    (hlen : rtpHeaderSize ≤ buf.length)
    (h : st.slot = none ∨ trackIsOpen = false) :
    relayStep st (RecvResult.dgram buf) now trackIsOpen sendOk fail =
      (st, {}) := by
  have hc : st.slot.map Prod.snd = none ∨
      buf.length < rtpHeaderSize ∨ trackIsOpen = false := by
    rcases h with h | h
    · exact Or.inl (by simp [h])
    · exact Or.inr (Or.inr h)
  simp only [relayStep, if_pos hc]

/-- Closed instance of `packet_without_open_track_ignored`: a 12-byte
datagram arriving before any session is installed is dropped with no state
change. -/
theorem packet_without_open_track_ignored_witness :
    relayStep initSt (RecvResult.dgram (List.replicate 12 7)) 5 true true
        none = (initSt, {}) :=
  packet_without_open_track_ignored initSt (List.replicate 12 7) 5 true true
    none (by decide) (Or.inl rfl)

/-- C6: on an inbound message whose discriminator is `request` or `ready`,
if the pending offer is non-empty and the channel-open flag is set, exactly
one outbound message `{id: remoteId, type: "offer", sdp: pendingOffer}` is
sent, with the stored offer text verbatim; if the pending offer is empty,
nothing is sent. -/
theorem request_replays_pending_offer (remoteId : String) (st : St)
    (m : JsonObj) (ty : String) (hty : m.find "type" = some ty)
    (hreq : ty = "request" ∨ ty = "ready") :
    ((st.pendingOffer ≠ "" ∧ st.wsOpen = true) →
      (onMessage remoteId st (WsData.text (some m))).2.wsMsgs =
        [⟨remoteId, "offer", st.pendingOffer⟩]) ∧
    (st.pendingOffer = "" →
      (onMessage remoteId st (WsData.text (some m))).2.wsMsgs = []) := by
  constructor
  · rintro ⟨h1, h2⟩
    rcases hreq with h | h <;> subst h <;>
      simp [onMessage, hty, h1, h2]
  · intro h0
    rcases hreq with h | h <;> subst h <;>
      simp [onMessage, hty, h0]

/-- Closed instance of `request_replays_pending_offer`: with pending offer
"offerSdp" and the channel open, a `{"type":"ready"}` message is answered by
exactly the stored offer; with an empty pending offer, by nothing. -/
theorem request_replays_pending_offer_witness :
    (onMessage "browser" { initSt with pendingOffer := "offerSdp", wsOpen := true } (WsData.text (some ⟨[("type", "ready")]⟩))).2.wsMsgs =
      [⟨"browser", "offer", "offerSdp"⟩] ∧
    (onMessage "browser" initSt
      (WsData.text (some ⟨[("type", "ready")]⟩))).2.wsMsgs = [] :=
  ⟨(request_replays_pending_offer "browser"
      { initSt with pendingOffer := "offerSdp", wsOpen := true }
      ⟨[("type", "ready")]⟩ "ready" rfl (Or.inr rfl)).1
      (by constructor <;> simp),
   (request_replays_pending_offer "browser" initSt
      ⟨[("type", "ready")]⟩ "ready" rfl (Or.inr rfl)).2 rfl⟩

/-- C7: an inbound payload that is not text, fails to parse, lacks the
`type` discriminator, or is an `answer` without an `sdp` field is dropped
with no effect at all: the state (session slot and pending offer included)
is returned unchanged and the output is empty (no sends, no applied
descriptions, no rebuild). `onMessage` is a total function, so none of
these payloads can raise an error. -/
theorem malformed_signaling_dropped (remoteId : String) (st : St) :
    onMessage remoteId st WsData.binary = (st, {}) ∧
    onMessage remoteId st (WsData.text none) = (st, {}) ∧
    (∀ m : JsonObj, m.find "type" = none →
      onMessage remoteId st (WsData.text (some m)) = (st, {})) ∧
    (∀ m : JsonObj, m.find "type" = some "answer" → m.find "sdp" = none →
      onMessage remoteId st (WsData.text (some m)) = (st, {})) := by
  refine ⟨rfl, rfl, ?_, ?_⟩
  · intro m hm
    simp [onMessage, hm]
  · intro m hm hsdp
    simp [onMessage, hm, hsdp]

/-- Closed instance of `malformed_signaling_dropped`: a payload without a
`type` field and an `answer` without `sdp` both leave the state untouched
and produce no output. -/
theorem malformed_signaling_dropped_witness :
    onMessage "browser" initSt (WsData.text (some ⟨[("sdp", "x")]⟩)) =
      (initSt, {}) ∧
    onMessage "browser" initSt (WsData.text (some ⟨[("type", "answer")]⟩)) =
      (initSt, {}) :=
  ⟨(malformed_signaling_dropped "browser" initSt).2.2.1 ⟨[("sdp", "x")]⟩ rfl,
   (malformed_signaling_dropped "browser" initSt).2.2.2
      ⟨[("type", "answer")]⟩ rfl rfl⟩

/-- Dispatching an inbound signaling message never changes the shared state
and never triggers a watchdog action, an accepted packet, or a rebuild. -/
theorem onMessage_effects (remoteId : String) (st : St) (d : WsData) :
    (onMessage remoteId st d).1 = st ∧
    (onMessage remoteId st d).2.wdTrig = false ∧
    (onMessage remoteId st d).2.accepted = false ∧
    (onMessage remoteId st d).2.builds = 0 := by
  rcases d with _ | p
  · exact ⟨rfl, rfl, rfl, rfl⟩
  · rcases p with _ | m
    · exact ⟨rfl, rfl, rfl, rfl⟩
    · unfold onMessage
      repeat' split
      all_goals exact ⟨rfl, rfl, rfl, rfl⟩

/-- `createPeerConnection` never touches the idle flag, the pending offer,
or the liveness timestamp (on any of its exit paths). -/
theorem createPeerConnection_preserves (st : St) (fail : Option BuildFail) :
    (createPeerConnection st fail).1.idle = st.idle ∧
    (createPeerConnection st fail).1.pendingOffer = st.pendingOffer ∧
    (createPeerConnection st fail).1.lastPacketMs = st.lastPacketMs := by
  rcases fail with _ | f
  · exact ⟨rfl, rfl, rfl⟩
  · cases f <;> exact ⟨rfl, rfl, rfl⟩

/-- While the idle flag is set, a watchdog tick leaves the state unchanged
and does not invoke the rebuild. -/
theorem watchdogTick_skips_when_idle (st : St) (now : Int)
    (fail : Option BuildFail) (h : st.idle = true) :
    watchdogTick st now fail = (st, false) := by
  simp [watchdogTick, h]

/-- The single-active-session invariant is preserved by every exit path of
`createPeerConnection`: the locked section closes the previous occupant of
the slot in the same critical section that installs the new pair. -/
theorem slotInv_build (st : St) (fail : Option BuildFail) (h : SlotInv st) :
    SlotInv (createPeerConnection st fail).1 := by
  rcases fail with _ | f
  · intro sid hmem hnc
    simp only [createPeerConnection] at hmem hnc ⊢
    rcases hslot : st.slot with _ | pr
    · simp only [hslot] at hmem hnc ⊢
      rcases List.mem_cons.mp hmem with he | hm
      · simp [slotPc, he]
      · exact absurd (h sid hm hnc) (by simp [slotPc, hslot])
    · simp only [hslot] at hmem hnc ⊢
      rcases List.mem_cons.mp hmem with he | hm
      · simp [slotPc, he]
      · have h2 : sid ∉ st.closed := fun hc => hnc (List.mem_cons_of_mem _ hc)
        have h3 : sid ≠ pr.1 := by
          intro he
          exact hnc (by simp [he])
        have := h sid hm h2
        rw [slotPc, hslot] at this
        simp at this
        exact absurd this.symm h3
  · cases f <;> exact h

/-- The single-active-session invariant is preserved by every event. -/
theorem slotInv_step (remoteId : String) (st : St) (e : Event)
    (h : SlotInv st) : SlotInv (step remoteId st e).1 := by
  rcases e with _ | _ | d | desc | ⟨now, fail⟩ | ⟨r, now, topen, sok, fail⟩ | fail
  · exact h
  · exact h
  · simp only [step]
    rw [(onMessage_effects remoteId st d).1]
    exact h
  · simp only [step, onGatheringComplete]
    split <;> exact h
  · simp only [step, watchdogTick]
    split
    · exact slotInv_build _ fail h
    · exact h
  · simp only [step, relayStep]
    rcases r with e2 | buf
    · exact h
    · by_cases hc : st.slot.map Prod.snd = none ∨
          buf.length < rtpHeaderSize ∨ topen = false
      · simp only [if_pos hc]
        exact h
      · simp only [if_neg hc]
        by_cases hs : sok = true
        · simp only [if_pos hs]
          exact h
        · simp only [if_neg hs]
          refine slotInv_build _ fail ?_
          exact h
  · exact slotInv_build st fail h

/-- The single-active-session invariant is preserved by every trace. -/
theorem slotInv_trace (remoteId : String) (es : List Event) :
    ∀ st : St, SlotInv st → SlotInv (runTrace remoteId st es).1 := by
  induction es with
  | nil =>
    intro st h
    exact h
  | cons e es ih =>
    intro st h
    simp only [runTrace]
    exact ih (step remoteId st e).1 (slotInv_step remoteId st e h)

/-- An event the relay loop cannot accept keeps a set idle flag set, and
does not let the watchdog invoke a rebuild. -/
theorem step_no_accept (remoteId : String) (st : St) (e : Event)
    (hma : mayAccept e = false) (hidle : st.idle = true) :
    (step remoteId st e).1.idle = true ∧
    (step remoteId st e).2.wdTrig = false := by
  rcases e with _ | _ | d | desc | ⟨now, fail⟩ | ⟨r, now, topen, sok, fail⟩ | fail
  · exact ⟨hidle, rfl⟩
  · exact ⟨hidle, rfl⟩
  · have he := onMessage_effects remoteId st d
    refine ⟨?_, he.2.1⟩
    simp only [step]
    rw [he.1]
    exact hidle
  · simp only [step, onGatheringComplete]
    split <;> exact ⟨hidle, rfl⟩
  · refine ⟨?_, ?_⟩ <;>
      simp [step, watchdogTick_skips_when_idle st now fail hidle, hidle]
  · rcases r with e2 | buf
    · exact ⟨hidle, rfl⟩
    · have hc : st.slot.map Prod.snd = none ∨
          buf.length < rtpHeaderSize ∨ topen = false := by
        simp only [mayAccept, Bool.and_eq_false_iff] at hma
        rcases hma with h1 | h1
        · exact Or.inr (Or.inr h1)
        · refine Or.inr (Or.inl ?_)
          simp at h1
          omega
      simp only [step, relayStep, if_pos hc]
      exact ⟨hidle, trivial⟩
  · refine ⟨?_, rfl⟩
    simp only [step]
    rw [(createPeerConnection_preserves st fail).1]
    exact hidle

/-- Starting from a state with the idle flag set, a trace in which no event
can be accepted by the relay loop keeps the idle flag set and contains no
watchdog-triggered rebuild. -/
theorem no_accept_trace (remoteId : String) (es : List Event) :
    ∀ st : St, st.idle = true → (∀ e ∈ es, mayAccept e = false) →
    (runTrace remoteId st es).1.idle = true ∧
    ∀ o ∈ (runTrace remoteId st es).2, o.wdTrig = false := by
  induction es with
  | nil =>
    intro st h _
    exact ⟨h, by simp [runTrace]⟩
  | cons e es ih =>
    intro st h hma
    have h1 := step_no_accept remoteId st e (hma e (by simp)) h
    have h2 := ih (step remoteId st e).1 h1.1
      (fun e2 he2 => hma e2 (by simp [he2]))
    constructor
    · simpa [runTrace] using h2.1
    · intro o ho
      simp only [runTrace] at ho
      rcases List.mem_cons.mp ho with rfl | ho2
      · exact h1.2
      · exact h2.2 o ho2

/-- C2: the single-active-session invariant holds along every trace: every
installed-and-not-closed session is the slot's current one (so at most one
installed session is non-closed at any observation point); moreover a
completed rebuild installs exactly the freshly built (session, track) pair
and closes the previous occupant in the same critical section. -/
theorem single_active_session (remoteId : String) (st : St)
    (es : List Event) (h : SlotInv st) :
    SlotInv (runTrace remoteId st es).1 ∧
    (∀ s1 ∈ (runTrace remoteId st es).1.installed,
      ∀ s2 ∈ (runTrace remoteId st es).1.installed,
      s1 ∉ (runTrace remoteId st es).1.closed →
      s2 ∉ (runTrace remoteId st es).1.closed → s1 = s2) ∧
    (createPeerConnection st none).1.slot = some (st.nextId, st.nextId) ∧
    (createPeerConnection st none).2 = true ∧
    (∀ oldPc t, st.slot = some (oldPc, t) →
      oldPc ∈ (createPeerConnection st none).1.closed) := by
  have hinv := slotInv_trace remoteId es st h
  refine ⟨hinv, ?_, rfl, rfl, ?_⟩
  · intro s1 h1 s2 h2 hn1 hn2
    have e1 := hinv s1 h1 hn1
    have e2 := hinv s2 h2 hn2
    rw [e1] at e2
    exact Option.some_injective _ e2
  · intro oldPc t hslot
    simp [createPeerConnection, hslot]

/-- Closed instance of `single_active_session`: two consecutive rebuilds
from the initial state leave only session 1 non-closed, with session 0
closed during the second rebuild's critical section. -/
theorem single_active_session_witness :
    SlotInv initSt ∧
    SlotInv (runTrace "browser" initSt
      [Event.build none, Event.build none]).1 :=
  ⟨by decide,
   (single_active_session "browser" initSt [Event.build none, Event.build none]
      (by decide)).1⟩

/-- C3 (divergence witness): a watchdog tick taken while the signaling
channel is NOT open and a rebuild IS in progress still performs the idle
action: with a non-zero liveness timestamp older than the threshold and the
idle flag clear, the tick sets the idle flag, clears the pending offer, and
invokes a rebuild. The guard at main.cpp line 211 only sleeps — there is no
`continue` — so it does not skip the tick's action as the spec requires. -/
theorem watchdog_guard_missing_continue :
    watchdogTick { wsOpen := false, pendingOffer := "stale", slot := none, installed := [], closed := [], idle := false, lastPacketMs := 1000, reconnecting := true, nextId := 0 } 4000 none =
      ({ wsOpen := false, pendingOffer := "", slot := some (0, 0), installed := [0], closed := [], idle := true, lastPacketMs := 1000, reconnecting := false, nextId := 1 }, true) := by
  decide

/-- C4: a watchdog tick on a state with a prior packet observed, a gap above
the idle threshold, and the idle flag clear invokes exactly one rebuild,
sets the idle flag, and clears the pending offer; and from any state with
the idle flag set, no trace free of relay-acceptable packets ever contains
a watchdog-triggered rebuild (the flag stays set until an accepted packet
clears it). -/
theorem idle_triggers_single_rebuild :
    (∀ (st : St) (now : Int) (fail : Option BuildFail),
      st.lastPacketMs ≠ 0 → now - st.lastPacketMs > idleThresholdMs →
      st.idle = false →
      (watchdogTick st now fail).2 = true ∧
      (watchdogTick st now fail).1.idle = true ∧
      (watchdogTick st now fail).1.pendingOffer = "") ∧
    (∀ (remoteId : String) (st : St) (es : List Event),
      st.idle = true → (∀ e ∈ es, mayAccept e = false) →
      (runTrace remoteId st es).1.idle = true ∧
      ∀ o ∈ (runTrace remoteId st es).2, o.wdTrig = false) := by
  constructor
  · intro st now fail h1 h2 h3
    have hcond : st.lastPacketMs ≠ 0 ∧
        now - st.lastPacketMs > idleThresholdMs ∧ st.idle = false :=
      ⟨h1, h2, h3⟩
    refine ⟨?_, ?_, ?_⟩ <;> simp only [watchdogTick, if_pos hcond]
    · rw [(createPeerConnection_preserves _ fail).1]
    · rw [(createPeerConnection_preserves _ fail).2.1]
  · exact fun remoteId st es h hma => no_accept_trace remoteId es st h hma

/-- Closed instance of `idle_triggers_single_rebuild`: a tick at 4000 ms
with the last packet at 1000 ms triggers the rebuild, and from an idle
state a further tick triggers nothing. -/
theorem idle_triggers_single_rebuild_witness :
    (watchdogTick { initSt with lastPacketMs := 1000, idle := false } 4000 none).2 = true ∧
    (runTrace "browser" initSt [Event.tick 9999 none]).1.idle = true :=
  ⟨(idle_triggers_single_rebuild.1
      { initSt with lastPacketMs := 1000, idle := false } 4000 none
      (by decide) (by decide) rfl).1,
   (idle_triggers_single_rebuild.2 "browser" initSt [Event.tick 9999 none]
      rfl (by decide)).1⟩

/-- C5 (counterexample): an invocation of `createPeerConnection` that exits
through an exception thrown while starting local negotiation leaves the
Reconnecting flag set to true — refuting "false on every exit path". -/
theorem reconnecting_left_set_on_error :
    (createPeerConnection initSt (some BuildFail.atSetLocal)).2 = false ∧
    (createPeerConnection initSt (some BuildFail.atSetLocal)).1.reconnecting
      = true :=
  ⟨rfl, rfl⟩

/-- C5 (amended): `createPeerConnection` sets the Reconnecting flag to true
on entry and clears it on the normal exit path after installing the new
pair; on an exit caused by an error (an exception during session
construction, media-line setup, or starting local negotiation) the flag
remains true and the session slot is left unchanged. -/
theorem reconnecting_flag_discipline (st : St) (fail : Option BuildFail) :
    (createPeerConnection st fail).1.reconnecting = fail.isSome ∧
    (fail.isSome = true →
      (createPeerConnection st fail).1.slot = st.slot ∧
      (createPeerConnection st fail).2 = false) ∧
    (fail = none → (createPeerConnection st fail).2 = true) := by
  rcases fail with _ | f
  · exact ⟨rfl, by simp, fun _ => rfl⟩
  · cases f <;> exact ⟨rfl, fun _ => ⟨rfl, rfl⟩, by simp⟩

/-- Closed instance of `reconnecting_flag_discipline`: a build failing at
construction exits with the flag still set and the slot unchanged; a
successful build exits with the flag cleared. -/
theorem reconnecting_flag_discipline_witness :
    (createPeerConnection initSt (some BuildFail.atCtor)).1.reconnecting
      = true ∧
    (createPeerConnection initSt (some BuildFail.atCtor)).1.slot
      = initSt.slot ∧
    (createPeerConnection initSt none).1.reconnecting = false :=
  ⟨(reconnecting_flag_discipline initSt (some BuildFail.atCtor)).1,
   ((reconnecting_flag_discipline initSt (some BuildFail.atCtor)).2.1 rfl).1,
   (reconnecting_flag_discipline initSt none).1⟩

/-- C9 (counterexample): a startup failure (the UDP bind fails) is caught
by the top-level handler, which prints to standard error; `main` then falls
off its end, so the process exits with status 0, not a non-zero status. -/
theorem startup_failure_exits_zero :
    mainTop [] ⟨false, true⟩ = MainOutcome.exitedWith 0 true := rfl

/-- C9 (amended): `--help` prints usage and exits 0; an unknown argument
prints to standard error and exits 1; an uncaught startup failure reaching
the top level prints a message to standard error and the process exits with
status 0 (the exception is caught at the end of `main`, which then returns
normally). -/
theorem cli_exit_codes (env : StartupEnv) :
    mainTop ["--help"] env = MainOutcome.exitedWith 0 false ∧
    mainTop ["--frobnicate"] env = MainOutcome.exitedWith 1 true ∧
    (∀ (args : List String) (cfg : Cfg),
      parseArgs defaultCfg args = ArgResult.proceed cfg →
      env.wsClosesBeforeOpen = true ∨ env.bindFails = true →
      mainTop args env = MainOutcome.exitedWith 0 true) := by
  refine ⟨rfl, rfl, ?_⟩
  intro args cfg h henv
  simp only [mainTop, h]
  rcases henv with h1 | h1
  · simp [h1]
  · cases hw : env.wsClosesBeforeOpen
    · simp [hw, h1]
    · simp [hw]

/-- Closed instance of `cli_exit_codes`: `--help` exits 0, and a run with a
failing UDP bind exits 0 after printing to standard error. -/
theorem cli_exit_codes_witness :
    mainTop ["--help"] ⟨false, true⟩ = MainOutcome.exitedWith 0 false ∧
    mainTop [] ⟨false, true⟩ = MainOutcome.exitedWith 0 true :=
  ⟨(cli_exit_codes ⟨false, true⟩).1,
   (cli_exit_codes ⟨false, true⟩).2.2 [] defaultCfg rfl (Or.inr rfl)⟩

end MediaSender
